import Mathlib

/-!
Verification of the StockInsightTracker indicator engine and sentiment
annotator (src/stock_data.py) against its specification.

The price series is embedded as a list of rational closes (floats
idealized as exact rationals).  The IEEE special values that the pandas
pipeline can produce — NaN from a 0/0 division and +inf from a positive/0
division — are made explicit in the type `RVal`, so that the RSI formula
`100 - 100/(1 + rs)` can be evaluated faithfully on them
(inf gives 100, NaN propagates).
-/

/-- An RSI/ratio cell value: a float idealized as a rational, or one of
the two IEEE special values the pipeline can actually produce. -/
inductive RVal where
  | nan : RVal
  | inf : RVal
  | val : ℚ → RVal
deriving DecidableEq, Repr

/-- `windowMean xs w i`: the trailing mean pandas `rolling(window=w).mean()`
produces at row `i` — the mean of `xs[i-w+1 .. i]` once `i ≥ w-1`, NaN
(here `none`) before the window is full.  Matches the default
`min_periods = window`. -/
def windowMean (xs : List ℚ) (w : Nat) (i : Nat) : Option ℚ :=
  if w ≤ i + 1 then some (((xs.drop (i + 1 - w)).take w).sum / w) else none

/-- `df['Close'].rolling(window=w).mean()` as a column aligned to `xs`. -/
def smaCol (xs : List ℚ) (w : Nat) : List (Option ℚ) :=
  (List.range xs.length).map (windowMean xs w)

/-- `df['Close'].diff()` at row `i`: NaN (`none`) at row 0, otherwise
`close[i] - close[i-1]`. -/
def deltaAt (xs : List ℚ) (i : Nat) : Option ℚ :=
  if i = 0 then none else some (xs.getD i 0 - xs.getD (i - 1) 0)

/-- `delta.where(delta > 0, 0)` at row `i`.  pandas `where` keeps the
value only where the condition holds; `NaN > 0` is false, so the NaN at
row 0 is replaced by 0 — the gain column has no NaN. -/
def gainAt (xs : List ℚ) (i : Nat) : ℚ :=
  match deltaAt xs i with
  | none => 0
  | some d => if 0 < d then d else 0

/-- `(-delta.where(delta < 0, 0))` at row `i`; as with `gainAt`, the NaN
at row 0 becomes 0. -/
def lossAt (xs : List ℚ) (i : Nat) : ℚ :=
  match deltaAt xs i with
  | none => 0
  | some d => if d < 0 then -d else 0

/-- The gain column, aligned to `xs`. -/
def gains (xs : List ℚ) : List ℚ :=
  (List.range xs.length).map (gainAt xs)

/-- The loss column, aligned to `xs`. -/
def losses (xs : List ℚ) : List ℚ :=
  (List.range xs.length).map (lossAt xs)

/-- `gain.rolling(window=14).mean()` at row `i`. -/
def avgGain (xs : List ℚ) (i : Nat) : Option ℚ :=
  windowMean (gains xs) 14 i

/-- `loss.rolling(window=14).mean()` at row `i`. -/
def avgLoss (xs : List ℚ) (i : Nat) : Option ℚ :=
  windowMean (losses xs) 14 i

/-- `rs = gain / loss` at row `i`, with float division semantics:
NaN for a NaN operand or 0/0, +inf for positive/0. -/
def rsAt (xs : List ℚ) (i : Nat) : RVal :=
  match avgGain xs i, avgLoss xs i with
  | some g, some l =>
      if l = 0 then (if g = 0 then RVal.nan else RVal.inf) else RVal.val (g / l)
  | _, _ => RVal.nan

/-- `100 - (100 / (1 + rs))` at row `i`: 100 when `rs` is +inf, NaN
propagates, otherwise the usual formula (here `1 + rs > 0` since gains
and losses are nonnegative). -/
def rsiAt (xs : List ℚ) (i : Nat) : RVal :=
  match rsAt xs i with
  | RVal.nan => RVal.nan
  | RVal.inf => RVal.val 100
  | RVal.val q => RVal.val (100 - 100 / (1 + q))

/-- The `df['RSI']` column, aligned to `xs`. -/
def rsiCol (xs : List ℚ) : List RVal :=
  (List.range xs.length).map (rsiAt xs)

/-- A pandas DataFrame as the engine sees it: a date index, a close
column, and the four derived columns, each `none` until (and unless)
`calculate_technical_indicators` has assigned it. -/
structure DataFrame where
  dates : List Int
  close : List ℚ
  sma20 : Option (List (Option ℚ)) := none
  sma50 : Option (List (Option ℚ)) := none
  sma200 : Option (List (Option ℚ)) := none
  rsi : Option (List RVal) := none
deriving DecidableEq, Repr

/-- The in-place effect of `calculate_technical_indicators` on the
DataFrame object it is handed: the four column assignments
(`df['SMA20'] = ...`, …, `df['RSI'] = ...`). -/
def calcOnObject (df : DataFrame) : DataFrame :=
  { df with
    sma20 := some (smaCol df.close 20)
    sma50 := some (smaCol df.close 50)
    sma200 := some (smaCol df.close 200)
    rsi := some (rsiCol df.close) }

/-- Python reference semantics of the call `calculate_technical_indicators(df)`:
the first component is the state of the caller's object after the call
(the function assigns columns onto the object it was passed), and the
second records that the returned reference aliases the argument
(the body ends in `return df`). -/
def calcCall (df : DataFrame) : DataFrame × Bool :=
  (calcOnObject df, true)

/-- The error taxonomy the specification names for the indicator engine. -/
inductive StockError where
  | dataIntegrityError : StockError
deriving DecidableEq, Repr

/-- `calculate_technical_indicators` with an explicit error channel for
the spec's DataIntegrityError.  The source performs no validation and
contains no raise statement: it computes the four columns positionally,
never reading the date index, and always succeeds. -/
def calculate_technical_indicators (df : DataFrame) : Except StockError DataFrame :=
  Except.ok (calcOnObject df)

/-- A raw article as returned by the news provider; `description` can be
null (Python `None`). -/
structure Article where
  title : String
  description : Option String
  url : String
  publishedAt : String
deriving DecidableEq, Repr

/-- A scored news entry as built inside the `fetch_news` loop. -/
structure NewsItem where
  title : String
  description : String
  url : String
  publishedAt : String
  sentiment : ℚ
deriving DecidableEq, Repr

/-- One iteration of the `fetch_news` scoring loop, for polarity scorer
`pol` (TextBlob, an external dependency, abstracted as a function).
`article['title'] + ' ' + article['description']` raises a TypeError when
the description is `None`: that is the `none` outcome. -/
def scoreArticle (pol : String → ℚ) (a : Article) : Option NewsItem :=
  match a.description with
  | none => none
  | some d =>
      some ⟨a.title, d, a.url, a.publishedAt, pol (a.title ++ " " ++ d)⟩

/-- The `for article in articles['articles'][:5]` loop of `fetch_news`:
articles are scored and appended in order; the first scoring failure
aborts the whole loop (the exception propagates out of the `for`). -/
def scoreLoop (pol : String → ℚ) : List Article → Option (List NewsItem)
  | [] => some []
  | a :: rest =>
      match scoreArticle pol a with
      | none => none
      | some item =>
          match scoreLoop pol rest with
          | none => none
          | some items => some (item :: items)

/-- `fetch_news`: `resp = none` models any failure contacting the
provider (the call raising inside the `try`); otherwise the provider's
article list is truncated to the first 5 and scored in order.  The whole
body is inside one `try/except` returning `[]`, so a scoring failure on
any article discards everything, including items already scored. -/
def fetch_news (pol : String → ℚ) (resp : Option (List Article)) : List NewsItem :=
  match resp with
  | none => []
  | some arts =>
      match scoreLoop pol (arts.take 5) with
      | none => []
      | some items => items

/-- A 20-day flat price series (constant close 100). -/
def flat20 : List ℚ :=
  [100, 100, 100, 100, 100, 100, 100, 100, 100, 100,
   100, 100, 100, 100, 100, 100, 100, 100, 100, 100]

/-- A 14-day strictly increasing price series. -/
def inc14 : List ℚ := [1, 2, 3, 4, 5, 6, 7, 8, 9, 10, 11, 12, 13, 14]

/-- A 15-day strictly increasing price series. -/
def up15 : List ℚ := [1, 2, 3, 4, 5, 6, 7, 8, 9, 10, 11, 12, 13, 14, 15]

/-- A frame whose date index is not monotonically increasing. -/
def dfNonMono : DataFrame := { dates := [2, 1, 3], close := [10, 11, 12] }

/-- Same closes as `dfNonMono` under a different (also unsorted) date index. -/
def dfShuffled : DataFrame := { dates := [3, 1, 2], close := [10, 11, 12] }

/-- A one-row frame with no derived columns yet. -/
def dfSmall : DataFrame := { dates := [0], close := [5] }

/-- The empty price series as a frame. -/
def emptyFrame : DataFrame := { dates := [], close := [] }

/-- A trivial polarity scorer for concrete instantiations. -/
def pol0 : String → ℚ := fun _ => 0

/-- Two provider articles, the second with a null description. -/
def artsBad : List Article :=
  [⟨"good", some "text", "u1", "p1"⟩, ⟨"broken", none, "u2", "p2"⟩]

/-! ### Helper lemmas -/

lemma length_gains (xs : List ℚ) : (gains xs).length = xs.length := by
  simp [gains]

lemma smaCol_getElem? (xs : List ℚ) (w i : ℕ) (h : i < xs.length) :
    (smaCol xs w)[i]? = some (windowMean xs w i) := by
  simp [smaCol, List.getElem?_map, List.getElem?_range h]

lemma rsiCol_getElem? (xs : List ℚ) (i : ℕ) (h : i < xs.length) :
    (rsiCol xs)[i]? = some (rsiAt xs i) := by
  simp [rsiCol, List.getElem?_map, List.getElem?_range h]

lemma windowMean_replicate_zero (n w i : ℕ) (h : w ≤ i + 1) :
    windowMean (List.replicate n (0 : ℚ)) w i = some 0 := by
  simp [windowMean, h, List.drop_replicate, List.take_replicate, List.sum_replicate]

lemma deltaAt_of_ne_zero (xs : List ℚ) (i : ℕ) (h : i ≠ 0) :
    deltaAt xs i = some (xs.getD i 0 - xs.getD (i - 1) 0) := by
  unfold deltaAt
  rw [if_neg h]

lemma gainAt_of_delta_some {xs : List ℚ} {i : ℕ} {d : ℚ} (h : deltaAt xs i = some d) :
    gainAt xs i = if 0 < d then d else 0 := by
  unfold gainAt
  rw [h]

lemma lossAt_of_delta_some {xs : List ℚ} {i : ℕ} {d : ℚ} (h : deltaAt xs i = some d) :
    lossAt xs i = if d < 0 then -d else 0 := by
  unfold lossAt
  rw [h]

lemma getD_replicate_of_lt (n : ℕ) (c : ℚ) (i : ℕ) (hi : i < n) :
    (List.replicate n c).getD i 0 = c := by
  rw [List.getD_eq_getElem _ _ (by rw [List.length_replicate]; exact hi)]
  simp

lemma gains_replicate (n : ℕ) (c : ℚ) :
    gains (List.replicate n c) = List.replicate n 0 := by
  unfold gains
  rw [List.length_replicate]
  have h : ∀ i ∈ List.range n, gainAt (List.replicate n c) i = (fun _ => (0 : ℚ)) i := by
    intro i hi
    rw [List.mem_range] at hi
    rcases Nat.eq_zero_or_pos i with h0 | h0
    · subst h0
      rfl
    · have h1 : i ≠ 0 := Nat.pos_iff_ne_zero.mp h0
      rw [gainAt_of_delta_some (deltaAt_of_ne_zero _ _ h1),
        getD_replicate_of_lt n c i hi, getD_replicate_of_lt n c (i - 1) (by omega)]
      simp
  rw [List.map_congr_left h, List.map_const', List.length_range]

lemma losses_replicate (n : ℕ) (c : ℚ) :
    losses (List.replicate n c) = List.replicate n 0 := by
  unfold losses
  rw [List.length_replicate]
  have h : ∀ i ∈ List.range n, lossAt (List.replicate n c) i = (fun _ => (0 : ℚ)) i := by
    intro i hi
    rw [List.mem_range] at hi
    rcases Nat.eq_zero_or_pos i with h0 | h0
    · subst h0
      rfl
    · have h1 : i ≠ 0 := Nat.pos_iff_ne_zero.mp h0
      rw [lossAt_of_delta_some (deltaAt_of_ne_zero _ _ h1),
        getD_replicate_of_lt n c i hi, getD_replicate_of_lt n c (i - 1) (by omega)]
      simp
  rw [List.map_congr_left h, List.map_const', List.length_range]

lemma getD_lt_getD_of_chain (xs : List ℚ) (h : List.Chain' (· < ·) xs) (i : ℕ)
    (h1 : 1 ≤ i) (hi : i < xs.length) : xs.getD (i - 1) 0 < xs.getD i 0 := by
  have hc := List.chain'_iff_get.mp h (i - 1) (by omega)
  rw [List.get_eq_getElem, List.get_eq_getElem] at hc
  rw [List.getD_eq_getElem _ _ (show i - 1 < xs.length by omega),
      List.getD_eq_getElem _ _ hi]
  simpa [Nat.sub_add_cancel h1] using hc

lemma losses_of_chain (xs : List ℚ) (h : List.Chain' (· < ·) xs) :
    losses xs = List.replicate xs.length 0 := by
  unfold losses
  have hall : ∀ i ∈ List.range xs.length, lossAt xs i = (fun _ => (0 : ℚ)) i := by
    intro i hi
    rw [List.mem_range] at hi
    rcases Nat.eq_zero_or_pos i with h0 | h0
    · subst h0
      rfl
    · have h1 : i ≠ 0 := Nat.pos_iff_ne_zero.mp h0
      have hlt := getD_lt_getD_of_chain xs h i h0 hi
      have hd : ¬ (xs.getD i 0 - xs.getD (i - 1) 0 < 0) := by linarith
      rw [lossAt_of_delta_some (deltaAt_of_ne_zero _ _ h1), if_neg hd]
  rw [List.map_congr_left hall, List.map_const', List.length_range]

lemma gainAt_nonneg (xs : List ℚ) (i : ℕ) : 0 ≤ gainAt xs i := by
  unfold gainAt
  cases hd : deltaAt xs i with
  | none => simp
  | some d =>
      dsimp only
      split
      · linarith
      · exact le_refl 0

lemma gainAt_pos_of_chain (xs : List ℚ) (h : List.Chain' (· < ·) xs) (i : ℕ)
    (h1 : 1 ≤ i) (hi : i < xs.length) : 0 < gainAt xs i := by
  have h0 : i ≠ 0 := by omega
  have hlt := getD_lt_getD_of_chain xs h i h1 hi
  have hd : 0 < xs.getD i 0 - xs.getD (i - 1) 0 := by linarith
  rw [gainAt_of_delta_some (deltaAt_of_ne_zero _ _ h0), if_pos hd]
  exact hd

lemma gains_all_nonneg (xs : List ℚ) : ∀ x ∈ gains xs, (0 : ℚ) ≤ x := by
  intro x hx
  unfold gains at hx
  obtain ⟨j, _, rfl⟩ := List.mem_map.mp hx
  exact gainAt_nonneg xs j

lemma gainAt_mem_window (xs : List ℚ) (i : ℕ) (h13 : 13 ≤ i) (hi : i < xs.length) :
    gainAt xs i ∈ ((gains xs).drop (i + 1 - 14)).take 14 := by
  have hlen : (gains xs).length = xs.length := length_gains xs
  have hwl : 13 < (((gains xs).drop (i + 1 - 14)).take 14).length := by
    rw [List.length_take, List.length_drop, hlen]
    omega
  have key : (((gains xs).drop (i + 1 - 14)).take 14)[13] = gainAt xs i := by
    rw [List.getElem_take, List.getElem_drop]
    unfold gains
    rw [List.getElem_map, List.getElem_range]
    rw [show i + 1 - 14 + 13 = i from by omega]
  rw [← key]
  exact List.getElem_mem hwl

lemma window_sum_pos (xs : List ℚ) (hmono : List.Chain' (· < ·) xs) (i : ℕ)
    (h13 : 13 ≤ i) (hi : i < xs.length) :
    0 < (((gains xs).drop (i + 1 - 14)).take 14).sum := by
  have hnn : ∀ x ∈ ((gains xs).drop (i + 1 - 14)).take 14, (0 : ℚ) ≤ x := by
    intro x hx
    exact gains_all_nonneg xs x (List.drop_subset _ _ (List.take_subset _ _ hx))
  have hmem := gainAt_mem_window xs i h13 hi
  have hle := List.single_le_sum hnn _ hmem
  have hpos := gainAt_pos_of_chain xs hmono i (by omega) hi
  linarith

lemma scoreArticle_fields {pol : String → ℚ} {a : Article} {item : NewsItem}
    (h : scoreArticle pol a = some item) :
    item.title = a.title ∧ item.url = a.url ∧ item.publishedAt = a.publishedAt := by
  unfold scoreArticle at h
  cases hd : a.description with
  | none =>
      rw [hd] at h
      cases h
  | some d =>
      rw [hd] at h
      cases h
      exact ⟨rfl, rfl, rfl⟩

lemma scoreLoop_fields (pol : String → ℚ) :
    ∀ (l : List Article) (ys : List NewsItem), scoreLoop pol l = some ys →
      ys.map (fun it => (it.title, it.url, it.publishedAt)) =
        l.map (fun a => (a.title, a.url, a.publishedAt)) := by
  intro l
  induction l with
  | nil =>
      intro ys h
      unfold scoreLoop at h
      cases h
      rfl
  | cons a rest ih =>
      intro ys h
      unfold scoreLoop at h
      cases hs : scoreArticle pol a with
      | none =>
          rw [hs] at h
          cases h
      | some item =>
          rw [hs] at h
          cases hr : scoreLoop pol rest with
          | none =>
              rw [hr] at h
              cases h
          | some items =>
              rw [hr] at h
              cases h
              obtain ⟨h1, h2, h3⟩ := scoreArticle_fields hs
              simp only [List.map_cons, h1, h2, h3, ih items hr]

lemma scoreLoop_none_of_bad (pol : String → ℚ) :
    ∀ (l : List Article), (∃ a ∈ l, a.description = none) → scoreLoop pol l = none := by
  intro l
  induction l with
  | nil =>
      intro h
      simp at h
  | cons a rest ih =>
      intro h
      rcases h with ⟨b, hb, hbd⟩
      rcases List.mem_cons.mp hb with heq | hbr
      · have hsb : scoreArticle pol a = none := by
          subst heq
          unfold scoreArticle
          rw [hbd]
        unfold scoreLoop
        rw [hsb]
      · unfold scoreLoop
        cases hs : scoreArticle pol a with
        | none => rfl
        | some item => rw [ih ⟨b, hbr, hbd⟩]

lemma rsAt_of_some {xs : List ℚ} {i : ℕ} {g l : ℚ}
    (hg : avgGain xs i = some g) (hl : avgLoss xs i = some l) :
    rsAt xs i = if l = 0 then (if g = 0 then RVal.nan else RVal.inf) else RVal.val (g / l) := by
  unfold rsAt
  rw [hg, hl]

lemma fetch_news_loop_none {pol : String → ℚ} {arts : List Article}
    (hs : scoreLoop pol (arts.take 5) = none) : fetch_news pol (some arts) = [] := by
  simp only [fetch_news]
  rw [hs]

lemma fetch_news_loop_some {pol : String → ℚ} {arts : List Article} {items : List NewsItem}
    (hs : scoreLoop pol (arts.take 5) = some items) : fetch_news pol (some arts) = items := by
  simp only [fetch_news]
  rw [hs]

/-! ### Claim theorems -/

/-- Claim C1 counterexample: on the 20-day flat price series the computed
RSI column holds NaN at position 14, not 50 — the 0/0 division of
`avgGain/avgLoss` passes straight through the RSI formula. -/
theorem rsi_flat_is_nan_not_fifty :
    (rsiCol flat20)[14]? = some RVal.nan ∧ some RVal.nan ≠ some (RVal.val 50) := by
  constructor
  · rw [rsiCol_getElem? _ _ (by norm_num [flat20])]
    norm_num [rsiAt, rsAt, avgGain, avgLoss, windowMean, gains, losses, gainAt, lossAt,
      deltaAt, flat20, List.range_succ]
  · simp

/-- Claim C1 (amended): on a constant price series the computed RSI is
NaN at every position of the column — the code leaves the flat-price case
as a NaN pass-through instead of the neutral value 50. -/
theorem rsi_flat_nan (n : ℕ) (c : ℚ) (i : ℕ) (hi : i < n) :
    (rsiCol (List.replicate n c))[i]? = some RVal.nan := by
  rw [rsiCol_getElem? _ _ (by simpa using hi)]
  unfold rsiAt rsAt avgGain avgLoss
  rw [gains_replicate, losses_replicate]
  by_cases h : 14 ≤ i + 1
  · rw [windowMean_replicate_zero _ _ _ h]
    simp
  · simp [windowMean, h]

/-- Claim C1 witness: the amended flat-price theorem at a concrete input. -/
theorem rsi_flat_nan_witness :
    (14 : ℕ) < 20 ∧ (rsiCol (List.replicate 20 (100 : ℚ)))[14]? = some RVal.nan :=
  ⟨by norm_num, rsi_flat_nan 20 100 14 (by norm_num)⟩

/-- Claim C2 counterexample: on a strictly increasing 14-day series the
RSI column is already defined at position 13 (with value 100), refuting
"RSI is undefined for every position i < 14". -/
theorem rsi_defined_at_13 :
    (rsiCol inc14)[13]? = some (RVal.val 100) ∧ RVal.val 100 ≠ RVal.nan := by
  constructor
  · rw [rsiCol_getElem? _ _ (by norm_num [inc14])]
    norm_num [rsiAt, rsAt, avgGain, avgLoss, windowMean, gains, losses, gainAt, lossAt,
      deltaAt, inc14, List.range_succ]
  · simp

/-- Claim C2 (amended): RSI is undefined (NaN) for every position i < 13;
the first position at which it can be defined is 13, because the
undefined delta at position 0 is coerced to a zero gain/loss by
`where(delta > 0, 0)`, so the 14-sample rolling means fill at index 13. -/
theorem rsi_undefined_before_13 (xs : List ℚ) (i : ℕ) (h : i < 13) (hi : i < xs.length) :
    (rsiCol xs)[i]? = some RVal.nan := by
  rw [rsiCol_getElem? _ _ hi]
  unfold rsiAt rsAt avgGain avgLoss
  have h14 : ¬ (14 ≤ i + 1) := by omega
  simp [windowMean, h14]

/-- Claim C2 witness: the amended theorem at a concrete position. -/
theorem rsi_undefined_before_13_witness :
    (5 : ℕ) < 13 ∧ (5 : ℕ) < up15.length ∧ (rsiCol up15)[5]? = some RVal.nan :=
  ⟨by norm_num, by norm_num [up15], rsi_undefined_before_13 up15 5 (by norm_num) (by norm_num [up15])⟩

/-- Claim C3 counterexample: on a frame whose date index is not
monotonically increasing, indicator computation succeeds normally — it
does not fail with DataIntegrityError (no validation exists in the code). -/
theorem nonmonotonic_gives_ok :
    ¬ List.Chain' (· < ·) dfNonMono.dates ∧
      calculate_technical_indicators dfNonMono ≠ Except.error StockError.dataIntegrityError := by
  constructor
  · norm_num [dfNonMono, List.chain'_cons]
  · simp [calculate_technical_indicators]

/-- Claim C3 (amended): indicator computation performs no input
validation: on every frame it returns a normal result (never a
DataIntegrityError), and its derived columns depend only on the close
column — the date index, monotonic or not, is never consulted. -/
theorem calc_no_validation (df₁ df₂ : DataFrame) (h : df₁.close = df₂.close) :
    (∃ r₁, calculate_technical_indicators df₁ = Except.ok r₁) ∧
    ∀ r₁ r₂, calculate_technical_indicators df₁ = Except.ok r₁ →
      calculate_technical_indicators df₂ = Except.ok r₂ →
      r₁.sma20 = r₂.sma20 ∧ r₁.sma50 = r₂.sma50 ∧ r₁.sma200 = r₂.sma200 ∧ r₁.rsi = r₂.rsi := by
  constructor
  · exact ⟨_, rfl⟩
  · intro r₁ r₂ h₁ h₂
    simp only [calculate_technical_indicators, Except.ok.injEq] at h₁ h₂
    subst h₁
    subst h₂
    simp [calcOnObject, h]

/-- Claim C3 witness: two concrete frames with the same closes under
different unsorted date indexes; computation succeeds on both. -/
theorem calc_no_validation_witness :
    dfNonMono.close = dfShuffled.close ∧
      ∃ r₁, calculate_technical_indicators dfNonMono = Except.ok r₁ :=
  ⟨rfl, (calc_no_validation dfNonMono dfShuffled rfl).1⟩

/-- Claim C4: for w in 20, 50, 200, the SMA column at position i holds
the arithmetic mean (sum divided by length) of the close slice
close[i-w+1 .. i] whenever i is at least w-1, and the undefined marker
for every earlier position. -/
theorem sma_window_spec (xs : List ℚ) (w i : ℕ) (hw : w = 20 ∨ w = 50 ∨ w = 200)
    (hi : i < xs.length) :
    (w - 1 ≤ i →
      (smaCol xs w)[i]? = some (some (((xs.take (i + 1)).drop (i + 1 - w)).sum /
        (((xs.take (i + 1)).drop (i + 1 - w)).length : ℚ)))) ∧
    (i < w - 1 → (smaCol xs w)[i]? = some none) := by
  have hw1 : 1 ≤ w := by rcases hw with h | h | h <;> omega
  constructor
  · intro hwi
    have hle : w ≤ i + 1 := by omega
    rw [smaCol_getElem? _ _ _ hi]
    unfold windowMean
    rw [if_pos hle, List.drop_take, show i + 1 - (i + 1 - w) = w from by omega]
    have hlen : ((xs.drop (i + 1 - w)).take w).length = w := by
      rw [List.length_take, List.length_drop]
      omega
    rw [hlen]
  · intro hlt
    have hn : ¬ (w ≤ i + 1) := by omega
    rw [smaCol_getElem? _ _ _ hi]
    unfold windowMean
    rw [if_neg hn]

/-- Claim C4 witness: the SMA-20 value at position 19 of a 25-day series
is the mean of the first 20 closes. -/
theorem sma_window_spec_witness :
    (smaCol (List.replicate 25 (4 : ℚ)) 20)[19]? =
      some (some ((((List.replicate 25 (4 : ℚ)).take (19 + 1)).drop (19 + 1 - 20)).sum /
        ((((List.replicate 25 (4 : ℚ)).take (19 + 1)).drop (19 + 1 - 20)).length : ℚ))) :=
  (sma_window_spec (List.replicate 25 4) 20 19 (Or.inl rfl) (by norm_num)).1 (by norm_num)

/-- Claim C5: on a strictly increasing close series, avgLoss is 0 and the
RSI column holds exactly 100 at every defined position: the positive/0
division yields +inf and 100 - 100/(1+inf) = 100, with no fault. -/
theorem rsi_uptrend_100 (xs : List ℚ) (hmono : List.Chain' (· < ·) xs) (i : ℕ)
    (h13 : 13 ≤ i) (hi : i < xs.length) :
    avgLoss xs i = some 0 ∧ (rsiCol xs)[i]? = some (RVal.val 100) := by
  have hl : avgLoss xs i = some 0 := by
    unfold avgLoss
    rw [losses_of_chain xs hmono]
    exact windowMean_replicate_zero _ _ _ (by omega)
  refine ⟨hl, ?_⟩
  have h14 : 14 ≤ i + 1 := by omega
  have hsum := window_sum_pos xs hmono i h13 hi
  have hg : avgGain xs i = some ((((gains xs).drop (i + 1 - 14)).take 14).sum / ((14 : ℕ) : ℚ)) := by
    unfold avgGain windowMean
    rw [if_pos h14]
  have hgpos : 0 < (((gains xs).drop (i + 1 - 14)).take 14).sum / ((14 : ℕ) : ℚ) := by
    positivity
  have hrs : rsAt xs i = RVal.inf := by
    rw [rsAt_of_some hg hl, if_pos rfl, if_neg (ne_of_gt hgpos)]
  rw [rsiCol_getElem? _ _ hi]
  unfold rsiAt
  rw [hrs]

/-- Claim C5 witness: the uptrend theorem at a concrete 15-day series. -/
theorem rsi_uptrend_100_witness :
    List.Chain' (· < ·) up15 ∧ (13 : ℕ) ≤ 13 ∧ (13 : ℕ) < up15.length ∧
      (avgLoss up15 13 = some 0 ∧ (rsiCol up15)[13]? = some (RVal.val 100)) :=
  ⟨by norm_num [up15, List.chain'_cons], by norm_num, by norm_num [up15],
    rsi_uptrend_100 up15 (by norm_num [up15, List.chain'_cons]) 13 (by norm_num)
      (by norm_num [up15])⟩

/-- Claim C6: on the empty price series the computation returns an empty
result — every derived column is the empty list — and does not fail. -/
theorem calc_empty_ok :
    calculate_technical_indicators emptyFrame =
      Except.ok { dates := [], close := [], sma20 := some [], sma50 := some [],
                  sma200 := some [], rsi := some [] } := by
  rfl

/-- Claim C7 counterexample: the computation mutates the caller's object:
after the call the caller's frame is not the frame that was passed in (it
has gained the derived columns), and the returned reference is the
argument itself, not a new structure. -/
theorem calc_mutates_input :
    (calcCall dfSmall).1 ≠ dfSmall ∧ (calcCall dfSmall).2 = true := by
  constructor
  · intro hEq
    have h20 := congrArg DataFrame.sma20 hEq
    simp [calcCall, calcOnObject, dfSmall] at h20
  · rfl

/-- Claim C7 (amended): the computation operates in place: the returned
reference aliases the argument, the date and close columns are preserved,
and the four derived columns are installed on the caller's object, each
aligned (same length) with the close column. -/
theorem calc_inplace_alias (df : DataFrame) :
    (calcCall df).2 = true ∧
    (calcCall df).1.dates = df.dates ∧ (calcCall df).1.close = df.close ∧
    (calcCall df).1.sma20 = some (smaCol df.close 20) ∧
    (calcCall df).1.sma50 = some (smaCol df.close 50) ∧
    (calcCall df).1.sma200 = some (smaCol df.close 200) ∧
    (calcCall df).1.rsi = some (rsiCol df.close) ∧
    (smaCol df.close 20).length = df.close.length ∧
    (smaCol df.close 50).length = df.close.length ∧
    (smaCol df.close 200).length = df.close.length ∧
    (rsiCol df.close).length = df.close.length := by
  refine ⟨rfl, rfl, rfl, rfl, rfl, rfl, rfl, ?_, ?_, ?_, ?_⟩
  all_goals simp [smaCol, rsiCol]

/-- Claim C8: the returned news list has at most 5 items, and its
identifying fields form a prefix of the provider's article list in the
provider's order — truncation keeps the first five and never reorders. -/
theorem fetch_news_prefix_five (pol : String → ℚ) (resp : Option (List Article)) :
    (fetch_news pol resp).length ≤ 5 ∧
    (fetch_news pol resp).map (fun it => (it.title, it.url, it.publishedAt)) <+:
      (resp.getD []).map (fun a => (a.title, a.url, a.publishedAt)) := by
  cases resp with
  | none => simp [fetch_news]
  | some arts =>
      cases hs : scoreLoop pol (arts.take 5) with
      | none =>
          rw [fetch_news_loop_none hs]
          simp
      | some items =>
          rw [fetch_news_loop_some hs]
          have hf := scoreLoop_fields pol (arts.take 5) items hs
          have hlen : items.length = (arts.take 5).length := by
            have := congrArg List.length hf
            simpa using this
          constructor
          · rw [hlen]
            exact List.length_take_le 5 arts
          · simp only [Option.getD_some]
            rw [hf]
            exact List.IsPrefix.map _ (List.take_prefix 5 arts)

/-- Claim C9: a failure contacting the provider, and likewise a provider
response with zero articles, each produce the empty list; no error is
propagated to the caller. -/
theorem fetch_news_failure_empty (pol : String → ℚ) :
    fetch_news pol none = [] ∧ fetch_news pol (some []) = [] :=
  ⟨rfl, rfl⟩

/-- Claim C10: if any of the first five provider articles has a null
description, the title-description concatenation raises, and fetch_news
returns the empty list — all articles, including those already scored,
are discarded. -/
theorem fetch_news_all_or_nothing (pol : String → ℚ) (arts : List Article)
    (h : ∃ a ∈ arts.take 5, a.description = none) :
    fetch_news pol (some arts) = [] :=
  fetch_news_loop_none (scoreLoop_none_of_bad pol (arts.take 5) h)

/-- Claim C10 witness: a two-article response whose first article scores
fine and whose second has a null description yields the empty list. -/
theorem fetch_news_all_or_nothing_witness :
    (∃ a ∈ artsBad.take 5, a.description = none) ∧ fetch_news pol0 (some artsBad) = [] :=
  ⟨⟨⟨"broken", none, "u2", "p2"⟩, by simp [artsBad], rfl⟩,
    fetch_news_all_or_nothing pol0 artsBad
      ⟨⟨"broken", none, "u2", "p2"⟩, by simp [artsBad], rfl⟩⟩
